import Mathlib

/-!
Shallow embedding of the classic-snake game implemented in src/main.rs.

The Rust program is a single-file raylib game.  Everything relevant to the
specification's claims is simulation state and pure state transitions; the
drawing functions only emit rendering side effects and are not modelled.

Modelling conventions:
* i32 coordinates are modelled as Int.  All coordinates the game manipulates
  stay tiny (the grid is 18 by 18 and the snake resets as soon as its head
  leaves the grid), so i32 wrap-around is unreachable and Int is faithful.
* Instant / elapsed wall-clock seconds (f32 in the source) are modelled as
  exact rationals; Game.update receives the current time as a parameter.
* rand.thread_rng().gen_range(lo..hi) is modelled by gen_range applied to an
  arbitrary natural draw r: the result is lo + (r mod (hi - lo)), which has
  exactly the support of the source distribution.  Game.update receives the
  two draws a tick may consume as parameters r1 r2.
* Vec indexing body[0] and body.last().unwrap() panic on an empty Vec in
  Rust.  The empty-body case is unreachable (the length-at-least-1 invariant,
  claim C7); the corresponding Lean functions return a harmless total default
  there, and the theorems that need it carry a nonempty-body hypothesis.
-/

/-- Source constant: window width in pixels (main.rs line 5). -/
def WIDTH : Int := 450

/-- Source constant: window height in pixels (main.rs line 6). -/
def HEIGHT : Int := 450

/-- Source constant: pixel size of one grid cell (main.rs line 7). -/
def CELL_SIZE : Int := 25

/-- The program's own Vector2 struct (main.rs lines 9-13): a pair of i32. -/
@[ext]
structure Vector2 where
  x : Int
  y : Int
deriving DecidableEq, Repr

instance : Inhabited Vector2 := ⟨⟨0, 0⟩⟩

/-- The raylib colors the program uses, as an opaque enumeration. -/
inductive Color where
  | blue
  | skyblue
  | red
  | lightgray
  | raywhite
deriving DecidableEq, Repr

/-- Grid struct (main.rs lines 15-18): static dimensions of the play field. -/
structure Grid where
  rows : Int
  cols : Int
deriving DecidableEq, Repr

/-- Grid::new (main.rs lines 21-23). -/
def Grid.new (rows cols : Int) : Grid := ⟨rows, cols⟩

/-- Food struct (main.rs lines 35-38): one cell position plus a color. -/
structure Food where
  position : Vector2
  color : Color
deriving DecidableEq, Repr

/-- Food::new (main.rs lines 41-46). -/
def Food.new (x y : Int) (color : Color) : Food := ⟨⟨x, y⟩, color⟩

/-- Food::get_position (main.rs lines 48-53): the cell scaled to pixels. -/
def Food.get_position (f : Food) : Vector2 :=
  ⟨f.position.x * CELL_SIZE, f.position.y * CELL_SIZE⟩

/-- Snake struct (main.rs lines 66-70): body cells (head first) and colors. -/
structure Snake where
  body : List Vector2
  color : Color
  grow_color : Color
deriving DecidableEq, Repr

/-- Snake::new (main.rs lines 73-79): a single-cell body at (x, y). -/
def Snake.new (x y : Int) (color grow_color : Color) : Snake :=
  ⟨[⟨x, y⟩], color, grow_color⟩

/-- Snake::grow (main.rs lines 81-87): read the last body cell and push a
copy of it.  The Rust code unwraps body.last(), which panics on an empty
body; that case is unreachable under the length-at-least-1 invariant and is
modelled as a no-op. -/
def Snake.grow (s : Snake) : Snake :=
  match s.body.getLast? with
  | none => s
  | some last_segment =>
      { s with body := s.body ++ [⟨last_segment.x, last_segment.y⟩] }

/-- Snake::check_collision (main.rs lines 89-97): linear scan of body[1..]
comparing each segment's coordinates with the head's.  body[0] panics on an
empty body in Rust; the unreachable empty case returns false here. -/
def Snake.check_collision (s : Snake) : Bool :=
  match s.body with
  | [] => false
  | head :: rest => rest.any fun segment => head.x == segment.x && head.y == segment.y

/-- The loop of Snake::update (main.rs lines 104-109): each segment of the
tail takes the value prev_head held when the loop reached it, and prev_head
is replaced by the segment's old value. -/
def shiftTail (prev_head : Vector2) : List Vector2 → List Vector2
  | [] => []
  | segment :: rest => prev_head :: shiftTail segment rest

/-- Snake::update (main.rs lines 99-110): save the old head, translate the
head by move_dir, then thread the saved old positions through the tail. -/
def Snake.update (s : Snake) (move_dir : Vector2) : Snake :=
  match s.body with
  | [] => s
  | head :: rest =>
      { s with body := ⟨head.x + move_dir.x, head.y + move_dir.y⟩ :: shiftTail head rest }

/-- Game struct (main.rs lines 126-134).  last_update is the wall-clock time
(in seconds, an Instant in the source) of the last simulation step. -/
structure Game where
  grid : Grid
  snake : Snake
  food : Food
  move_dir : Vector2
  direction : String
  game_speed : ℚ
  last_update : ℚ

/-- Game::new (main.rs lines 137-150); now is the construction instant. -/
def Game.new (now : ℚ) : Game where
  grid := Grid.new (WIDTH / CELL_SIZE) (HEIGHT / CELL_SIZE)
  snake := Snake.new 5 5 .blue .skyblue
  food := Food.new 10 15 .red
  move_dir := ⟨0, 0⟩
  direction := "none"
  game_speed := 10
  last_update := now

/-- The keyboard keys the program distinguishes; every key other than the
four arrows falls into the catch-all arm of the source's match. -/
inductive KeyboardKey where
  | key_up
  | key_down
  | key_left
  | key_right
  | key_other
deriving DecidableEq, Repr

/-- Game::handle_keydown (main.rs lines 152-180): set move_dir and the
direction label unless the current direction is the exact opposite of the
requested one. -/
def Game.handle_keydown (g : Game) (keycode : KeyboardKey) : Game :=
  match keycode with
  | .key_up =>
      if g.direction ≠ "down" then
        { g with move_dir := ⟨0, -1⟩, direction := "up" }
      else g
  | .key_down =>
      if g.direction ≠ "up" then
        { g with move_dir := ⟨0, 1⟩, direction := "down" }
      else g
  | .key_left =>
      if g.direction ≠ "right" then
        { g with move_dir := ⟨-1, 0⟩, direction := "left" }
      else g
  | .key_right =>
      if g.direction ≠ "left" then
        { g with move_dir := ⟨1, 0⟩, direction := "right" }
      else g
  | .key_other => g

/-- Model of rand.thread_rng().gen_range(lo..hi) at draw r: the result is
lo + (r mod (hi - lo)), covering exactly the half-open range of the source. -/
def gen_range (lo hi : Int) (r : Nat) : Int :=
  lo + ((r % (hi - lo).toNat : Nat) : Int)

/-- Game::respawn_food (main.rs lines 187-192): move the food to a random
cell with both axes drawn from [0, WIDTH / CELL_SIZE). -/
def Game.respawn_food (g : Game) (r1 r2 : Nat) : Game :=
  let max_x := WIDTH / CELL_SIZE
  let max_y := HEIGHT / CELL_SIZE
  { g with food := { g.food with position := ⟨gen_range 0 max_x r1, gen_range 0 max_y r2⟩ } }

/-- Game::eat_food (main.rs lines 182-185): grow the snake, then relocate
the food. -/
def Game.eat_food (g : Game) (r1 r2 : Nat) : Game :=
  Game.respawn_food { g with snake := g.snake.grow } r1 r2

/-- Game::reset_snake (main.rs lines 220-223): replace the snake with a
fresh single-cell snake at (5, 5) and zero move_dir.  The direction label is
not touched. -/
def Game.reset_snake (g : Game) : Game :=
  { g with snake := Snake.new 5 5 .blue .skyblue, move_dir := ⟨0, 0⟩ }

/-- The body of Game::update once the rate-limit check has passed
(main.rs lines 199-217): move the snake, capture the moved head, reset on
wall or self collision, then compare that same captured head against the
food's pixel position and eat on a match, and finally record the tick
instant.  body[0] would panic on an empty body in Rust; headI supplies the
default for that unreachable case. -/
def Game.tick (g : Game) (now : ℚ) (r1 r2 : Nat) : Game :=
  let g1 : Game := { g with snake := g.snake.update g.move_dir }
  let snake_head := g1.snake.body.headI
  let g2 : Game :=
    if snake_head.x ≥ g1.grid.cols ∨ snake_head.x < 0 ∨ snake_head.y < 0 ∨
        snake_head.y ≥ g1.grid.rows ∨ g1.snake.check_collision = true then
      g1.reset_snake
    else g1
  let food_position := g2.food.get_position
  let g3 : Game :=
    if snake_head.x * CELL_SIZE = food_position.x ∧ snake_head.y * CELL_SIZE = food_position.y then
      g2.eat_food r1 r2
    else g2
  { g3 with last_update := now }

/-- Game::update (main.rs lines 194-218): early return while the elapsed
time since last_update is below one tick interval, otherwise run the tick. -/
def Game.update (g : Game) (now : ℚ) (r1 r2 : Nat) : Game :=
  if now - g.last_update < 1 / g.game_speed then g
  else g.tick now r1 r2

/-- The states the main loop (main.rs lines 244-269) can put the game in:
the freshly constructed game, and closure under one key event and one
Game::update call.  An update call whose rate check fails is the identity,
so a trace of these steps is exactly a schedule of real frames. -/
inductive Reachable : Game → Prop where
  | init (t0 : ℚ) : Reachable (Game.new t0)
  | keydown {g : Game} (k : KeyboardKey) : Reachable g → Reachable (g.handle_keydown k)
  | update {g : Game} (now : ℚ) (r1 r2 : Nat) :
      Reachable g → Reachable (g.update now r1 r2)

/-! ### Helper lemmas about the snake operations -/

theorem shiftTail_eq_dropLast (p : Vector2) (l : List Vector2) :
    shiftTail p l = (p :: l).dropLast := by
  induction l generalizing p with
  | nil => simp [shiftTail]
  | cons c rest ih => simp [shiftTail, ih]

theorem Snake.update_body {s : Snake} {a : Vector2} {l : List Vector2}
    (h : s.body = a :: l) (d : Vector2) :
    (s.update d).body = ⟨a.x + d.x, a.y + d.y⟩ :: (a :: l).dropLast := by
  simp [Snake.update, h, shiftTail_eq_dropLast]

theorem Snake.update_length (s : Snake) (d : Vector2) :
    (s.update d).body.length = s.body.length := by
  match hb : s.body with
  | [] => simp [Snake.update, hb]
  | a :: l => rw [Snake.update_body hb d]; simp

theorem Snake.update_ne_nil {s : Snake} (h : s.body ≠ []) (d : Vector2) :
    (s.update d).body ≠ [] := by
  match hb : s.body with
  | [] => exact absurd hb h
  | a :: l => rw [Snake.update_body hb d]; simp

theorem Snake.grow_body {s : Snake} (h : s.body ≠ []) :
    s.grow.body = s.body ++ [s.body.getLast h] := by
  have hg : s.body.getLast? = some (s.body.getLast h) := List.getLast?_eq_getLast _ h
  simp [Snake.grow, hg]

theorem Snake.grow_length {s : Snake} (h : s.body ≠ []) :
    s.grow.body.length = s.body.length + 1 := by
  rw [Snake.grow_body h]; simp

theorem getElem?_dropLast_of_lt {α : Type} (xs : List α) (j : Nat) (h : j < xs.length - 1) :
    xs.dropLast[j]? = xs[j]? := by
  have h1 : j < xs.dropLast.length := by rw [List.length_dropLast]; omega
  have h2 : j < xs.length := by omega
  rw [List.getElem?_eq_getElem h1, List.getElem?_eq_getElem h2, List.getElem_dropLast]

/-! ### C1 -/

/-- Claim C1: for every snake of length n at least 1 and every move_dir
different from (0,0), one Snake::update(move_dir) call leaves the length
equal to n, sets segment 0 to the old segment 0 translated by move_dir, and
sets every segment i > 0 to the pre-update position of segment i-1. -/
theorem C1_update_is_shift (s : Snake) (move_dir : Vector2)
    (hn : 1 ≤ s.body.length) (hd : move_dir ≠ ⟨0, 0⟩) :
    (s.update move_dir).body.length = s.body.length ∧
    (s.update move_dir).body[0]? =
      (s.body[0]?.map fun h => ⟨h.x + move_dir.x, h.y + move_dir.y⟩) ∧
    ∀ i : Nat, 0 < i → i < s.body.length →
      (s.update move_dir).body[i]? = s.body[i - 1]? := by
  obtain ⟨a, l, hb⟩ := List.exists_cons_of_ne_nil (List.length_pos.mp (by omega) : s.body ≠ [])
  refine ⟨Snake.update_length s move_dir, ?_, ?_⟩
  · rw [Snake.update_body hb move_dir, hb]
    simp
  · intro i hi hilen
    obtain ⟨j, rfl⟩ : ∃ j, i = j + 1 := ⟨i - 1, by omega⟩
    rw [Snake.update_body hb move_dir, hb]
    simp only [List.getElem?_cons_succ, Nat.add_sub_cancel]
    refine getElem?_dropLast_of_lt (a :: l) j ?_
    rw [hb] at hilen
    simp only [List.length_cons] at hilen ⊢
    omega

def sC1 : Snake := ⟨[⟨1, 2⟩, ⟨3, 4⟩], .blue, .skyblue⟩

/-- Witness for C1 at a concrete two-segment snake moving right. -/
theorem C1_witness :
    1 ≤ sC1.body.length ∧ (⟨1, 0⟩ : Vector2) ≠ ⟨0, 0⟩ ∧
    (sC1.update ⟨1, 0⟩).body[1]? = sC1.body[0]? :=
  ⟨by decide, by decide,
    (C1_update_is_shift sC1 ⟨1, 0⟩ (by decide) (by decide)).2.2 1 (by decide) (by decide)⟩

/-! ### C4 -/

/-- Statement vocabulary: the direction label each arrow key requests. -/
def key_label : KeyboardKey → String
  | .key_up => "up"
  | .key_down => "down"
  | .key_left => "left"
  | .key_right => "right"
  | .key_other => "none"

/-- Statement vocabulary: the movement vector each arrow key requests. -/
def key_vector : KeyboardKey → Vector2
  | .key_up => ⟨0, -1⟩
  | .key_down => ⟨0, 1⟩
  | .key_left => ⟨-1, 0⟩
  | .key_right => ⟨1, 0⟩
  | .key_other => ⟨0, 0⟩

/-- Statement vocabulary: the label opposite to the one an arrow key
requests. -/
def opposite_label : KeyboardKey → String
  | .key_up => "down"
  | .key_down => "up"
  | .key_left => "right"
  | .key_right => "left"
  | .key_other => ""

/-- Claim C4: for every current direction and directional key,
handle_keydown changes move_dir and the direction label only if the
requested direction is not the exact opposite of the current one: when the
current direction is the opposite, the game is left entirely unchanged, and
otherwise move_dir and direction are set to the requested values. -/
theorem C4_reversal_guard (g : Game) (k : KeyboardKey) (hk : k ≠ KeyboardKey.key_other) :
    (g.direction = opposite_label k → g.handle_keydown k = g) ∧
    (g.direction ≠ opposite_label k →
      (g.handle_keydown k).move_dir = key_vector k ∧
      (g.handle_keydown k).direction = key_label k) := by
  cases k with
  | key_other => exact absurd rfl hk
  | key_up =>
      refine ⟨fun h => ?_, fun h => ?_⟩
      · simp only [opposite_label] at h
        simp only [Game.handle_keydown]
        rw [if_neg (by simp [h])]
      · simp only [opposite_label] at h
        simp only [Game.handle_keydown]
        rw [if_pos h]
        exact ⟨rfl, rfl⟩
  | key_down =>
      refine ⟨fun h => ?_, fun h => ?_⟩
      · simp only [opposite_label] at h
        simp only [Game.handle_keydown]
        rw [if_neg (by simp [h])]
      · simp only [opposite_label] at h
        simp only [Game.handle_keydown]
        rw [if_pos h]
        exact ⟨rfl, rfl⟩
  | key_left =>
      refine ⟨fun h => ?_, fun h => ?_⟩
      · simp only [opposite_label] at h
        simp only [Game.handle_keydown]
        rw [if_neg (by simp [h])]
      · simp only [opposite_label] at h
        simp only [Game.handle_keydown]
        rw [if_pos h]
        exact ⟨rfl, rfl⟩
  | key_right =>
      refine ⟨fun h => ?_, fun h => ?_⟩
      · simp only [opposite_label] at h
        simp only [Game.handle_keydown]
        rw [if_neg (by simp [h])]
      · simp only [opposite_label] at h
        simp only [Game.handle_keydown]
        rw [if_pos h]
        exact ⟨rfl, rfl⟩

def gC4 : Game := { Game.new 0 with direction := "left" }

/-- Witness for C4: with current direction left, a right-arrow key leaves
the game unchanged. -/
theorem C4_witness : gC4.direction = opposite_label .key_right ∧
    gC4.handle_keydown .key_right = gC4 :=
  ⟨rfl, (C4_reversal_guard gC4 .key_right (by decide)).1 rfl⟩

/-! ### C5 -/

/-- Claim C5: for every non-empty snake, check_collision returns true if and
only if some non-head cell has exactly the same coordinates as the head
body[0]; in particular it returns false whenever all body cells are pairwise
distinct. -/
theorem C5_check_collision_iff (s : Snake) (a : Vector2) (l : List Vector2)
    (hb : s.body = a :: l) :
    (s.check_collision = true ↔ ∃ seg ∈ l, seg = a) ∧
    (s.body.Pairwise (fun p q => p ≠ q) → s.check_collision = false) := by
  constructor
  · simp only [Snake.check_collision, hb, List.any_eq_true, Bool.and_eq_true, beq_iff_eq]
    constructor
    · rintro ⟨seg, hseg, hx, hy⟩
      exact ⟨seg, hseg, Vector2.ext hx.symm hy.symm⟩
    · rintro ⟨seg, hseg, rfl⟩
      exact ⟨seg, hseg, rfl, rfl⟩
  · intro hp
    rw [hb] at hp
    simp only [Snake.check_collision, hb, List.any_eq_false, Bool.and_eq_true, beq_iff_eq,
      not_and]
    intro seg hseg hx hy
    exact absurd (Vector2.ext hx hy) ((List.pairwise_cons.mp hp).1 seg hseg)

def sC5 : Snake := ⟨[⟨2, 3⟩, ⟨2, 4⟩, ⟨2, 3⟩], .blue, .skyblue⟩

/-- Witness for C5 at a concrete snake whose third cell equals its head. -/
theorem C5_witness : sC5.body = ⟨2, 3⟩ :: [⟨2, 4⟩, ⟨2, 3⟩] ∧
    (sC5.check_collision = true ↔ ∃ seg ∈ [(⟨2, 4⟩ : Vector2), ⟨2, 3⟩], seg = ⟨2, 3⟩) :=
  ⟨rfl, (C5_check_collision_iff sC5 ⟨2, 3⟩ [⟨2, 4⟩, ⟨2, 3⟩] rfl).1⟩

/-! ### C6 -/

/-- Claim C6: for every non-empty snake, grow increases the body length by
exactly 1 and the new body is the old body with a copy of the old tail cell
appended, so all pre-existing segments are unchanged and the appended cell
has the coordinates the tail had at the moment of the call. -/
theorem C6_grow_appends_tail (s : Snake) (hn : s.body ≠ []) :
    s.grow.body = s.body ++ [s.body.getLast hn] ∧
    s.grow.body.length = s.body.length + 1 :=
  ⟨Snake.grow_body hn, Snake.grow_length hn⟩

def sC6 : Snake := ⟨[⟨7, 8⟩, ⟨7, 9⟩], .blue, .skyblue⟩

/-- Witness for C6 at a concrete two-cell snake. -/
theorem C6_witness : sC6.body ≠ [] ∧ sC6.grow.body.length = sC6.body.length + 1 :=
  ⟨by decide, (C6_grow_appends_tail sC6 (by decide)).2⟩

/-! ### Helper lemmas about Game.update -/

theorem Game.update_due (g : Game) (now : ℚ) (r1 r2 : Nat)
    (h : ¬ (now - g.last_update < 1 / g.game_speed)) :
    g.update now r1 r2 = g.tick now r1 r2 := by
  rw [Game.update, if_neg h]

/-- Heads-up form of the reset condition checked inside Game::update. -/
def resetCond (g : Game) : Prop :=
  (g.snake.update g.move_dir).body.headI.x ≥ g.grid.cols ∨
  (g.snake.update g.move_dir).body.headI.x < 0 ∨
  (g.snake.update g.move_dir).body.headI.y < 0 ∨
  (g.snake.update g.move_dir).body.headI.y ≥ g.grid.rows ∨
  (g.snake.update g.move_dir).check_collision = true

instance (g : Game) : Decidable (resetCond g) := by
  unfold resetCond; infer_instance

/-- Heads-up form of the eating condition checked inside Game::update: the
moved head, in pixel space, coincides with the food's pixel position. -/
def eatCond (g : Game) : Prop :=
  (g.snake.update g.move_dir).body.headI.x * CELL_SIZE = g.food.get_position.x ∧
  (g.snake.update g.move_dir).body.headI.y * CELL_SIZE = g.food.get_position.y

instance (g : Game) : Decidable (eatCond g) := by
  unfold eatCond; infer_instance

theorem Game.tick_of_reset_of_not_eat {g : Game} (now : ℚ) (r1 r2 : Nat)
    (hreset : resetCond g) (hnoeat : ¬ eatCond g) :
    g.tick now r1 r2 = { g with snake := Snake.new 5 5 .blue .skyblue,
                                move_dir := ⟨0, 0⟩, last_update := now } := by
  unfold resetCond at hreset
  unfold eatCond at hnoeat
  simp only [Game.tick, Game.reset_snake]
  rw [if_pos hreset, if_neg hnoeat]

theorem Game.tick_of_not_reset_of_eat {g : Game} (now : ℚ) (r1 r2 : Nat)
    (hnoreset : ¬ resetCond g) (heat : eatCond g) :
    g.tick now r1 r2 = { g with snake := (g.snake.update g.move_dir).grow,
                                food := { g.food with position :=
                                  ⟨gen_range 0 (WIDTH / CELL_SIZE) r1,
                                   gen_range 0 (HEIGHT / CELL_SIZE) r2⟩ },
                                last_update := now } := by
  unfold resetCond at hnoreset
  unfold eatCond at heat
  simp only [Game.tick, Game.eat_food, Game.respawn_food]
  rw [if_neg hnoreset, if_pos heat]

theorem Game.tick_of_not_reset_of_not_eat {g : Game} (now : ℚ) (r1 r2 : Nat)
    (hnoreset : ¬ resetCond g) (hnoeat : ¬ eatCond g) :
    g.tick now r1 r2 = { g with snake := g.snake.update g.move_dir,
                                last_update := now } := by
  unfold resetCond at hnoreset
  unfold eatCond at hnoeat
  simp only [Game.tick]
  rw [if_neg hnoreset, if_neg hnoeat]

theorem Game.tick_of_reset_of_eat {g : Game} (now : ℚ) (r1 r2 : Nat)
    (hreset : resetCond g) (heat : eatCond g) :
    g.tick now r1 r2 = { g with snake := (Snake.new 5 5 .blue .skyblue).grow,
                                move_dir := ⟨0, 0⟩,
                                food := { g.food with position :=
                                  ⟨gen_range 0 (WIDTH / CELL_SIZE) r1,
                                   gen_range 0 (HEIGHT / CELL_SIZE) r2⟩ },
                                last_update := now } := by
  unfold resetCond at hreset
  unfold eatCond at heat
  simp only [Game.tick, Game.reset_snake, Game.eat_food, Game.respawn_food]
  rw [if_pos hreset, if_pos heat]

theorem Game.handle_keydown_snake (g : Game) (k : KeyboardKey) :
    (g.handle_keydown k).snake = g.snake := by
  cases k <;> simp only [Game.handle_keydown] <;> first | (split <;> rfl) | rfl

theorem Snake.grow_ne_nil {s : Snake} (h : s.body ≠ []) : s.grow.body ≠ [] := by
  rw [Snake.grow_body h]
  simp

theorem Game.tick_snake_ne {g : Game} (h : g.snake.body ≠ []) (now : ℚ) (r1 r2 : Nat) :
    (g.tick now r1 r2).snake.body ≠ [] := by
  have h1 : (g.snake.update g.move_dir).body ≠ [] := Snake.update_ne_nil h _
  by_cases hr : resetCond g <;> by_cases he : eatCond g
  · rw [Game.tick_of_reset_of_eat now r1 r2 hr he]
    exact Snake.grow_ne_nil (by simp [Snake.new])
  · rw [Game.tick_of_reset_of_not_eat now r1 r2 hr he]
    simp [Snake.new]
  · rw [Game.tick_of_not_reset_of_eat now r1 r2 hr he]
    exact Snake.grow_ne_nil h1
  · rw [Game.tick_of_not_reset_of_not_eat now r1 r2 hr he]
    exact h1

theorem Game.update_snake_ne {g : Game} (h : g.snake.body ≠ []) (now : ℚ) (r1 r2 : Nat) :
    (g.update now r1 r2).snake.body ≠ [] := by
  rw [Game.update]
  split
  · exact h
  · exact Game.tick_snake_ne h now r1 r2

/-! ### C7 -/

/-- Claim C7: the snake body is never empty: Snake::new constructs a
single-cell body, grow and update preserve nonemptiness, the Game-level
reset installs a single-cell body, and every game state reachable through
the main loop has a nonempty snake body, so grow is never called on an
empty body. -/
theorem C7_body_never_empty :
    (∀ (x y : Int) (c gc : Color), (Snake.new x y c gc).body.length = 1) ∧
    (∀ s : Snake, s.body ≠ [] → s.grow.body ≠ []) ∧
    (∀ (s : Snake) (d : Vector2), s.body ≠ [] → (s.update d).body ≠ []) ∧
    (∀ g : Game, g.reset_snake.snake.body.length = 1) ∧
    (∀ g : Game, Reachable g → g.snake.body ≠ []) := by
  refine ⟨fun x y c gc => rfl, fun s h => Snake.grow_ne_nil h,
    fun s d h => Snake.update_ne_nil h d, fun g => rfl, ?_⟩
  intro g hg
  induction hg with
  | init t0 => simp [Game.new, Snake.new]
  | keydown k hr ih =>
      rw [Game.handle_keydown_snake]
      exact ih
  | update now r1 r2 hr ih => exact Game.update_snake_ne ih now r1 r2

/-- Witness for C7: the freshly constructed game has a nonempty snake. -/
theorem C7_witness : (Game.new 0).snake.body ≠ [] :=
  C7_body_never_empty.2.2.2.2 (Game.new 0) (Reachable.init 0)

/-! ### C8 -/

/-- Claim C8: when Game::update is called before one tick interval
1 / game_speed has elapsed since last_update, the call is a no-op: the whole
game state, in particular the snake body, the food position, move_dir, the
direction label and last_update, is unchanged. -/
theorem C8_rate_limited_noop (g : Game) (now : ℚ) (r1 r2 : Nat)
    (h : now - g.last_update < 1 / g.game_speed) :
    g.update now r1 r2 = g ∧
    (g.update now r1 r2).snake.body = g.snake.body ∧
    (g.update now r1 r2).food.position = g.food.position ∧
    (g.update now r1 r2).move_dir = g.move_dir ∧
    (g.update now r1 r2).direction = g.direction ∧
    (g.update now r1 r2).last_update = g.last_update := by
  have he : g.update now r1 r2 = g := by rw [Game.update, if_pos h]
  exact ⟨he, by rw [he], by rw [he], by rw [he], by rw [he], by rw [he]⟩

/-- Witness for C8: an update call at the very instant of the last tick. -/
theorem C8_witness :
    ((0 : ℚ) - (Game.new 0).last_update < 1 / (Game.new 0).game_speed) ∧
    (Game.new 0).update 0 0 0 = Game.new 0 :=
  ⟨by norm_num [Game.new], (C8_rate_limited_noop (Game.new 0) 0 0 0 (by norm_num [Game.new])).1⟩

/-! ### C2 -/

def gC2 : Game :=
  { grid := ⟨18, 18⟩, snake := ⟨[⟨17, 5⟩], .blue, .skyblue⟩, food := ⟨⟨10, 15⟩, .red⟩,
    move_dir := ⟨1, 0⟩, direction := "right", game_speed := 10, last_update := 0 }

/-- Counterexample to claim C2 as stated: a due tick drives the head out of
the grid at x = 18 and the snake is reset, but the direction label stays
"right", so the resulting state does not satisfy the claim's Idle condition
direction = "none". -/
theorem C2_counterexample :
    ¬ ((1 : ℚ) - gC2.last_update < 1 / gC2.game_speed) ∧
    (gC2.snake.update gC2.move_dir).body.headI.x ≥ gC2.grid.cols ∧
    (gC2.update 1 0 0).direction = "right" ∧ ("right" : String) ≠ "none" := by
  refine ⟨by norm_num [gC2], by decide, ?_, by decide⟩
  rw [Game.update_due gC2 1 0 0 (by norm_num [gC2])]
  decide

/-- Claim C2 amended: for every game state in which a due Game::update tick
moves the head outside the grid or onto a non-head segment, and the moved
head does not coincide with the food's pixel position, the tick replaces the
whole snake with a fresh single-cell snake at (5, 5) and resets move_dir to
(0, 0); the direction label is not reset to "none" but keeps its prior
value, so the state returns to Idle only in its move_dir component. -/
theorem C2_reset_keeps_direction (g : Game) (now : ℚ) (r1 r2 : Nat)
    (hdue : ¬ (now - g.last_update < 1 / g.game_speed))
    (hreset : resetCond g) (hnoeat : ¬ eatCond g) :
    (g.update now r1 r2).snake = Snake.new 5 5 .blue .skyblue ∧
    (g.update now r1 r2).move_dir = ⟨0, 0⟩ ∧
    (g.update now r1 r2).direction = g.direction := by
  rw [Game.update_due g now r1 r2 hdue,
    Game.tick_of_reset_of_not_eat now r1 r2 hreset hnoeat]
  exact ⟨rfl, rfl, rfl⟩

/-- Witness for the amended C2 at the concrete out-of-bounds state gC2. -/
theorem C2_witness :
    (¬ ((1 : ℚ) - gC2.last_update < 1 / gC2.game_speed)) ∧ resetCond gC2 ∧ ¬ eatCond gC2 ∧
    (gC2.update 1 0 0).snake = Snake.new 5 5 .blue .skyblue ∧
    (gC2.update 1 0 0).move_dir = ⟨0, 0⟩ ∧
    (gC2.update 1 0 0).direction = gC2.direction := by
  have h := C2_reset_keeps_direction gC2 1 0 0 (by norm_num [gC2]) (by decide) (by decide)
  exact ⟨by norm_num [gC2], by decide, by decide, h.1, h.2.1, h.2.2⟩

/-! ### C3 -/

theorem gen_range_nonneg (hi : Int) (r : Nat) : 0 ≤ gen_range 0 hi r := by
  unfold gen_range
  omega

theorem gen_range_lt (hi : Int) (h : 0 < hi) (r : Nat) : gen_range 0 hi r < hi := by
  unfold gen_range
  rw [Int.sub_zero]
  have hlt : r % hi.toNat < hi.toNat := Nat.mod_lt _ (by omega)
  omega

def gC3 : Game :=
  { grid := ⟨18, 18⟩,
    snake := ⟨[⟨12, 14⟩, ⟨13, 14⟩, ⟨13, 15⟩, ⟨12, 15⟩, ⟨11, 15⟩], .blue, .skyblue⟩,
    food := ⟨⟨12, 15⟩, .red⟩, move_dir := ⟨0, 1⟩, direction := "down",
    game_speed := 10, last_update := 20 }

/-- Counterexample to claim C3 as stated: a due tick in which the moved head
lands exactly on the food's pixel position while also colliding with the
snake's own body.  The eat fires on the head captured before the reset, so
the resulting length is 2, not the previous length 5 plus 1. -/
theorem C3_counterexample :
    ¬ ((21 : ℚ) - gC3.last_update < 1 / gC3.game_speed) ∧
    eatCond gC3 ∧
    gC3.snake.body.length = 5 ∧
    (gC3.update 21 3 4).snake.body.length = 2 ∧
    (gC3.update 21 3 4).snake.body.length ≠ gC3.snake.body.length + 1 := by
  have he : gC3.update 21 3 4 = gC3.tick 21 3 4 :=
    Game.update_due gC3 21 3 4 (by norm_num [gC3])
  refine ⟨by norm_num [gC3], by decide, by decide, ?_, ?_⟩ <;> rw [he] <;> decide

/-- Claim C3 amended: for every game state with a nonempty snake in which
the moved head's pixel position equals the food's pixel position in a due
Game::update tick, provided the same tick does not also trigger the reset
condition (head in the grid and no self collision), the subsequent state has
snake length equal to the previous length plus 1, and the food's new
position lies within [0, cols) x [0, rows) for the 18 by 18 grid the game
constructs (both axes drawn independently from [0, 18)). -/
theorem C3_eat_grows_and_respawns (g : Game) (now : ℚ) (r1 r2 : Nat)
    (hdue : ¬ (now - g.last_update < 1 / g.game_speed))
    (hne : g.snake.body ≠ [])
    (hcols : g.grid.cols = 18) (hrows : g.grid.rows = 18)
    (heat : eatCond g) (hnoreset : ¬ resetCond g) :
    (g.update now r1 r2).snake.body.length = g.snake.body.length + 1 ∧
    0 ≤ (g.update now r1 r2).food.position.x ∧
    (g.update now r1 r2).food.position.x < g.grid.cols ∧
    0 ≤ (g.update now r1 r2).food.position.y ∧
    (g.update now r1 r2).food.position.y < g.grid.rows := by
  rw [Game.update_due g now r1 r2 hdue,
    Game.tick_of_not_reset_of_eat now r1 r2 hnoreset heat]
  have h1 : (g.snake.update g.move_dir).body ≠ [] := Snake.update_ne_nil hne _
  have hw : WIDTH / CELL_SIZE = (18 : Int) := rfl
  have hh : HEIGHT / CELL_SIZE = (18 : Int) := rfl
  refine ⟨?_, ?_, ?_, ?_, ?_⟩
  · show ((g.snake.update g.move_dir).grow).body.length = g.snake.body.length + 1
    rw [Snake.grow_length h1, Snake.update_length]
  · exact gen_range_nonneg _ r1
  · show gen_range 0 (WIDTH / CELL_SIZE) r1 < g.grid.cols
    rw [hcols, hw]
    exact gen_range_lt 18 (by norm_num) r1
  · exact gen_range_nonneg _ r2
  · show gen_range 0 (HEIGHT / CELL_SIZE) r2 < g.grid.rows
    rw [hrows, hh]
    exact gen_range_lt 18 (by norm_num) r2

def gC3w : Game :=
  { grid := ⟨18, 18⟩, snake := ⟨[⟨9, 15⟩], .blue, .skyblue⟩, food := ⟨⟨10, 15⟩, .red⟩,
    move_dir := ⟨1, 0⟩, direction := "right", game_speed := 10, last_update := 0 }

/-- Witness for the amended C3 at a concrete state about to eat the food. -/
theorem C3_witness :
    (¬ ((1 : ℚ) - gC3w.last_update < 1 / gC3w.game_speed)) ∧ gC3w.snake.body ≠ [] ∧
    eatCond gC3w ∧ ¬ resetCond gC3w ∧
    (gC3w.update 1 3 4).snake.body.length = gC3w.snake.body.length + 1 ∧
    0 ≤ (gC3w.update 1 3 4).food.position.x ∧
    (gC3w.update 1 3 4).food.position.x < gC3w.grid.cols := by
  have h := C3_eat_grows_and_respawns gC3w 1 3 4 (by norm_num [gC3w]) (by decide)
    rfl rfl (by decide) (by decide)
  exact ⟨by norm_num [gC3w], by decide, by decide, by decide, h.1, h.2.1, h.2.2.1⟩

/-! ### C9 -/

def gC9 : Game := ((Game.new 0).handle_keydown .key_right).update 1 0 0

/-- Claim C9: in the initial configuration (an 18 by 18 grid from the 450
pixel window with 25 pixel cells, a single-cell snake at (5, 5), food at
(10, 15)), a right input followed by one due update call yields head (6, 5),
length still 1, no reset (move_dir keeps the requested (1, 0)) and no food
eaten (the food is unmoved). -/
theorem C9_initial_scenario :
    (Game.new 0).grid.rows = 18 ∧ (Game.new 0).grid.cols = 18 ∧
    (Game.new 0).snake.body = [⟨5, 5⟩] ∧ (Game.new 0).food.position = ⟨10, 15⟩ ∧
    gC9.snake.body = [⟨6, 5⟩] ∧ gC9.snake.body.length = 1 ∧
    gC9.food.position = ⟨10, 15⟩ ∧ gC9.move_dir = ⟨1, 0⟩ ∧ gC9.direction = "right" := by
  have h : gC9 = ((Game.new 0).handle_keydown .key_right).tick 1 0 0 :=
    Game.update_due _ 1 0 0 (by show ¬((1 : ℚ) - 0 < 1 / 10); norm_num)
  refine ⟨rfl, rfl, rfl, rfl, ?_, ?_, ?_, ?_, ?_⟩ <;> rw [h] <;> decide

/-! ### C10 -/

theorem Reachable.keydown_eq {g g' : Game} (hr : Reachable g) (k : KeyboardKey)
    (h : g.handle_keydown k = g') : Reachable g' := h ▸ hr.keydown k

theorem Reachable.update_eq {g g' : Game} (hr : Reachable g) (now : ℚ) (r1 r2 : Nat)
    (h : g.update now r1 r2 = g') : Reachable g' := h ▸ hr.update now r1 r2

/-- Abbreviation for the game states traversed by the C10 trace: the 18 by
18 grid and the program's fixed colors, with the varying body, food cell,
movement vector, direction label and last-update instant. -/
def mkG (body : List Vector2) (fx fy : Int) (md : Vector2) (dir : String) (t : ℚ) : Game :=
  ⟨⟨18, 18⟩, ⟨body, .blue, .skyblue⟩, ⟨⟨fx, fy⟩, .red⟩, md, dir, 10, t⟩

/-- The reachable state exhibited for C10: a length-5 snake that has just
turned down, one cell above a body cell that carries the food. -/
def gC10 : Game :=
  mkG [⟨12, 14⟩, ⟨13, 14⟩, ⟨13, 15⟩, ⟨12, 15⟩, ⟨11, 15⟩] 12 15 ⟨0, 1⟩ "down" 20

theorem gC10_reachable : Reachable gC10 := by
  have r0 : Reachable (Game.new 0) := .init 0
  have r1 : Reachable (mkG [⟨5, 5⟩] 10 15 ⟨0, 1⟩ "down" 0) := r0.keydown_eq .key_down rfl
  have r2 : Reachable (mkG [⟨5, 6⟩] 10 15 ⟨0, 1⟩ "down" 1) :=
    r1.update_eq 1 0 0 (by rw [Game.update_due _ 1 0 0 (by norm_num [mkG])]; rfl)
  have r3 : Reachable (mkG [⟨5, 7⟩] 10 15 ⟨0, 1⟩ "down" 2) :=
    r2.update_eq 2 0 0 (by rw [Game.update_due _ 2 0 0 (by norm_num [mkG])]; rfl)
  have r4 : Reachable (mkG [⟨5, 8⟩] 10 15 ⟨0, 1⟩ "down" 3) :=
    r3.update_eq 3 0 0 (by rw [Game.update_due _ 3 0 0 (by norm_num [mkG])]; rfl)
  have r5 : Reachable (mkG [⟨5, 9⟩] 10 15 ⟨0, 1⟩ "down" 4) :=
    r4.update_eq 4 0 0 (by rw [Game.update_due _ 4 0 0 (by norm_num [mkG])]; rfl)
  have r6 : Reachable (mkG [⟨5, 10⟩] 10 15 ⟨0, 1⟩ "down" 5) :=
    r5.update_eq 5 0 0 (by rw [Game.update_due _ 5 0 0 (by norm_num [mkG])]; rfl)
  have r7 : Reachable (mkG [⟨5, 11⟩] 10 15 ⟨0, 1⟩ "down" 6) :=
    r6.update_eq 6 0 0 (by rw [Game.update_due _ 6 0 0 (by norm_num [mkG])]; rfl)
  have r8 : Reachable (mkG [⟨5, 12⟩] 10 15 ⟨0, 1⟩ "down" 7) :=
    r7.update_eq 7 0 0 (by rw [Game.update_due _ 7 0 0 (by norm_num [mkG])]; rfl)
  have r9 : Reachable (mkG [⟨5, 13⟩] 10 15 ⟨0, 1⟩ "down" 8) :=
    r8.update_eq 8 0 0 (by rw [Game.update_due _ 8 0 0 (by norm_num [mkG])]; rfl)
  have r10 : Reachable (mkG [⟨5, 14⟩] 10 15 ⟨0, 1⟩ "down" 9) :=
    r9.update_eq 9 0 0 (by rw [Game.update_due _ 9 0 0 (by norm_num [mkG])]; rfl)
  have r11 : Reachable (mkG [⟨5, 15⟩] 10 15 ⟨0, 1⟩ "down" 10) :=
    r10.update_eq 10 0 0 (by rw [Game.update_due _ 10 0 0 (by norm_num [mkG])]; rfl)
  have r12 : Reachable (mkG [⟨5, 15⟩] 10 15 ⟨1, 0⟩ "right" 10) :=
    r11.keydown_eq .key_right rfl
  have r13 : Reachable (mkG [⟨6, 15⟩] 10 15 ⟨1, 0⟩ "right" 11) :=
    r12.update_eq 11 0 0 (by rw [Game.update_due _ 11 0 0 (by norm_num [mkG])]; rfl)
  have r14 : Reachable (mkG [⟨7, 15⟩] 10 15 ⟨1, 0⟩ "right" 12) :=
    r13.update_eq 12 0 0 (by rw [Game.update_due _ 12 0 0 (by norm_num [mkG])]; rfl)
  have r15 : Reachable (mkG [⟨8, 15⟩] 10 15 ⟨1, 0⟩ "right" 13) :=
    r14.update_eq 13 0 0 (by rw [Game.update_due _ 13 0 0 (by norm_num [mkG])]; rfl)
  have r16 : Reachable (mkG [⟨9, 15⟩] 10 15 ⟨1, 0⟩ "right" 14) :=
    r15.update_eq 14 0 0 (by rw [Game.update_due _ 14 0 0 (by norm_num [mkG])]; rfl)
  have r17 : Reachable (mkG [⟨10, 15⟩, ⟨10, 15⟩] 11 15 ⟨1, 0⟩ "right" 15) :=
    r16.update_eq 15 11 15 (by rw [Game.update_due _ 15 11 15 (by norm_num [mkG])]; rfl)
  have r18 : Reachable (mkG [⟨11, 15⟩, ⟨10, 15⟩, ⟨10, 15⟩] 12 15 ⟨1, 0⟩ "right" 16) :=
    r17.update_eq 16 12 15 (by rw [Game.update_due _ 16 12 15 (by norm_num [mkG])]; rfl)
  have r19 : Reachable (mkG [⟨12, 15⟩, ⟨11, 15⟩, ⟨10, 15⟩, ⟨10, 15⟩] 13 15 ⟨1, 0⟩ "right" 17) :=
    r18.update_eq 17 13 15 (by rw [Game.update_due _ 17 13 15 (by norm_num [mkG])]; rfl)
  have r20 : Reachable
      (mkG [⟨13, 15⟩, ⟨12, 15⟩, ⟨11, 15⟩, ⟨10, 15⟩, ⟨10, 15⟩] 12 15 ⟨1, 0⟩ "right" 18) :=
    r19.update_eq 18 12 15 (by rw [Game.update_due _ 18 12 15 (by norm_num [mkG])]; rfl)
  have r21 : Reachable
      (mkG [⟨13, 15⟩, ⟨12, 15⟩, ⟨11, 15⟩, ⟨10, 15⟩, ⟨10, 15⟩] 12 15 ⟨0, -1⟩ "up" 18) :=
    r20.keydown_eq .key_up rfl
  have r22 : Reachable
      (mkG [⟨13, 14⟩, ⟨13, 15⟩, ⟨12, 15⟩, ⟨11, 15⟩, ⟨10, 15⟩] 12 15 ⟨0, -1⟩ "up" 19) :=
    r21.update_eq 19 0 0 (by rw [Game.update_due _ 19 0 0 (by norm_num [mkG])]; rfl)
  have r23 : Reachable
      (mkG [⟨13, 14⟩, ⟨13, 15⟩, ⟨12, 15⟩, ⟨11, 15⟩, ⟨10, 15⟩] 12 15 ⟨-1, 0⟩ "left" 19) :=
    r22.keydown_eq .key_left rfl
  have r24 : Reachable
      (mkG [⟨12, 14⟩, ⟨13, 14⟩, ⟨13, 15⟩, ⟨12, 15⟩, ⟨11, 15⟩] 12 15 ⟨-1, 0⟩ "left" 20) :=
    r23.update_eq 20 0 0 (by rw [Game.update_due _ 20 0 0 (by norm_num [mkG])]; rfl)
  exact r24.keydown_eq .key_down rfl

/-- Claim C10: inside a due Game::update tick the eating condition is
evaluated against the head position captured before the reset is applied:
there is a reachable state in which the snake's moved head self-collides
exactly on the food's cell, and the tick ends with a snake of length 2 at
the start position (5, 5) and a relocated in-range food rather than the
single-cell reset state. -/
theorem C10_eat_checked_before_reset :
    ∃ (g : Game) (now : ℚ) (r1 r2 : Nat),
      Reachable g ∧
      ¬ (now - g.last_update < 1 / g.game_speed) ∧
      (g.snake.update g.move_dir).check_collision = true ∧
      eatCond g ∧
      (g.update now r1 r2).snake.body = [⟨5, 5⟩, ⟨5, 5⟩] ∧
      (g.update now r1 r2).food.position ≠ g.food.position ∧
      0 ≤ (g.update now r1 r2).food.position.x ∧
      (g.update now r1 r2).food.position.x < 18 ∧
      0 ≤ (g.update now r1 r2).food.position.y ∧
      (g.update now r1 r2).food.position.y < 18 := by
  have hdue : ¬ ((21 : ℚ) - gC10.last_update < 1 / gC10.game_speed) := by norm_num [gC10, mkG]
  have htick : gC10.update 21 7 9 = gC10.tick 21 7 9 := Game.update_due gC10 21 7 9 hdue
  refine ⟨gC10, 21, 7, 9, gC10_reachable, hdue, by decide, by decide, ?_, ?_, ?_, ?_, ?_, ?_⟩ <;>
    rw [htick] <;> decide
